import Mathlib

/-!
# Shallow embedding of the crypto trading-bot core

Each definition below translates one function of the Python sources:

* `MarketDataManager` (src/src/market_data.py): the snapshot fetch-and-derive
  pipeline with per-symbol cache fallback, and the pure indicator derivations
  (trend, volatility, SMA, RSI).
* `MockBotManager` (src/src/bot_manager.py): the in-memory mock bot registry.
* `BinanceWebsocketManager` (src/src/websocket_manager.py): the streaming
  collection loop, connection set and broadcast sweep.
* `TradingBot` (src/main.py): the orchestrator cycle with per-pair failure
  isolation.

Modelling conventions: Python floats are modelled as `ℚ` (the properties at
stake are arithmetic, not rounding of binary floats); Python dictionaries are
association lists with first-match lookup and in-place update; a Python call
that may raise is modelled as an `Except Unit` value, and a `try/except`
boundary as a `match` on it; `datetime.now()` is an explicit parameter.
-/

set_option autoImplicit false

namespace Crypto

/-- Python slice `l[-n:]`: the last `n` elements (all of `l` when shorter). -/
def takeLast {α : Type} (n : ℕ) (l : List α) : List α :=
  l.drop (l.length - n)

/-- Python dictionary lookup `m.get(k)` over an association list. -/
def dictGet {κ α : Type} [DecidableEq κ] : List (κ × α) → κ → Option α
  | [], _ => none
  | p :: rest, k => if p.1 = k then some p.2 else dictGet rest k

/-- Python dictionary update `m[k] = v`: replace the first binding of `k`
in place, or append a new binding at the end. -/
def dictSet {κ α : Type} [DecidableEq κ] : List (κ × α) → κ → α → List (κ × α)
  | [], k, v => [(k, v)]
  | p :: rest, k, v => if p.1 = k then (k, v) :: rest else p :: dictSet rest k v

/-- Round to the nearest integer with ties to even, the rounding used by
Python's builtin `round` on exact values. -/
def roundHalfEven (x : ℚ) : ℤ :=
  if x - ⌊x⌋ < 1/2 then ⌊x⌋
  else if 1/2 < x - ⌊x⌋ then ⌊x⌋ + 1
  else if ⌊x⌋ % 2 = 0 then ⌊x⌋ else ⌊x⌋ + 1

/-- Python `round(x, 2)`. -/
def round2 (x : ℚ) : ℚ :=
  (roundHalfEven (x * 100) : ℚ) / 100

/-- A candlestick row; the derivations only read index 4, the close. -/
structure Kline where
  close : ℚ
deriving DecidableEq

/-- Translates `[float(k[4]) for k in klines]`. -/
def closesOf (klines : List Kline) : List ℚ :=
  klines.map Kline.close

/-- The ticker fields `get_market_data` reads. -/
structure Ticker where
  lastPrice : ℚ
  priceChangePercent : ℚ
  volume : ℚ
  highPrice : ℚ
  lowPrice : ℚ
deriving DecidableEq

/-- The `indicators` dictionary of a snapshot. -/
structure Indicators where
  sma_20 : ℚ
  rsi_14 : ℚ
  price_vs_sma : ℚ
deriving DecidableEq

/-- The `market_data` dictionary built by `get_market_data`. -/
structure MarketSnapshot where
  symbol : String
  current_price : ℚ
  price_change_24h : ℚ
  volume_24h : ℚ
  timestamp : ℕ
  trend : String
  volatility : ℚ
  indicators : Indicators
  high_24h : ℚ
  low_24h : ℚ
deriving DecidableEq

namespace MarketDataManager

/-- Translates `MarketDataManager._calculate_trend`. -/
def calculate_trend (klines : List Kline) : String :=
  if klines.length < 2 then "neutral"
  else
    let recent_closes := closesOf (takeLast 6 klines)
    let first_price := recent_closes.headD 0
    let last_price := recent_closes.getLastD 0
    let price_change := (last_price - first_price) / first_price * 100
    if 1 < price_change then "bullish"
    else if price_change < -1 then "bearish"
    else "neutral"

/-- Translates `MarketDataManager._calculate_volatility`. -/
def calculate_volatility (klines : List Kline) : ℚ :=
  if klines.length < 2 then 0
  else
    let recent_prices := closesOf (takeLast 12 klines)
    let price_changes := (List.range (recent_prices.length - 1)).map
      (fun i => |(recent_prices.getD (i + 1) 0 - recent_prices.getD i 0)
                  / recent_prices.getD i 0 * 100|)
    price_changes.sum / (price_changes.length : ℚ)

/-- Translates `[prices[i] - prices[i-1] for i in range(1, len(prices))]`. -/
def deltasOf (prices : List ℚ) : List ℚ :=
  List.zipWith (fun a b => a - b) prices.tail prices

/-- Translates `[d if d > 0 else 0 for d in deltas]`. -/
def gainsOf (deltas : List ℚ) : List ℚ :=
  deltas.map (fun d => if 0 < d then d else 0)

/-- Translates `[-d if d < 0 else 0 for d in deltas]`. -/
def lossesOf (deltas : List ℚ) : List ℚ :=
  deltas.map (fun d => if d < 0 then -d else 0)

/-- Translates `sum(gains[-period:]) / period` of `_calculate_rsi`. -/
def avg_gain (prices : List ℚ) (period : ℕ) : ℚ :=
  (takeLast period (gainsOf (deltasOf prices))).sum / (period : ℚ)

/-- Translates `sum(losses[-period:]) / period` of `_calculate_rsi`. -/
def avg_loss (prices : List ℚ) (period : ℕ) : ℚ :=
  (takeLast period (lossesOf (deltasOf prices))).sum / (period : ℚ)

/-- Translates `MarketDataManager._calculate_rsi`. -/
def calculate_rsi (prices : List ℚ) (period : ℕ) : ℚ :=
  if prices.length < period + 1 then 50
  else if avg_loss prices period = 0 then 100
  else round2 (100 - 100 / (1 + avg_gain prices period / avg_loss prices period))

/-- Translates `MarketDataManager._calculate_sma`. -/
def calculate_sma (prices : List ℚ) (period : ℕ) : ℚ :=
  if prices.length < period then prices.getLastD 0
  else (takeLast period prices).sum / (period : ℚ)

/-- Translates `MarketDataManager._calculate_indicators`. -/
def calculate_indicators (klines : List Kline) : Indicators :=
  if klines.length < 14 then { sma_20 := 0, rsi_14 := 50, price_vs_sma := 0 }
  else
    let closes := closesOf klines
    { sma_20 := calculate_sma closes 20
      rsi_14 := calculate_rsi closes 14
      price_vs_sma := (closes.getLastD 0 / calculate_sma closes 20 - 1) * 100 }

/-- The per-symbol snapshot cache `self.cached_data`. -/
abbrev Cache := List (String × MarketSnapshot)

/-- Translates `MarketDataManager.get_market_data`.  The two awaited data-source
calls (`get_ticker` and `get_klines`) are modelled by the `fetch` argument: an
`Except.error` value is a raised exception.  The surrounding `try/except` makes
the function total — on any fetch error it falls back to
`self.cached_data.get(symbol)` and leaves the cache untouched; a success builds
the snapshot, caches it wholesale and returns it. -/
def get_market_data (cache : Cache) (symbol : String)
    (fetch : Except Unit (Ticker × List Kline)) (now : ℕ) :
    Option MarketSnapshot × Cache :=
  match fetch with
  | .ok (ticker, klines) =>
      let market_data : MarketSnapshot :=
        { symbol := symbol
          current_price := ticker.lastPrice
          price_change_24h := ticker.priceChangePercent
          volume_24h := ticker.volume
          timestamp := now
          trend := calculate_trend klines
          volatility := calculate_volatility klines
          indicators := calculate_indicators klines
          high_24h := ticker.highPrice
          low_24h := ticker.lowPrice }
      (some market_data, dictSet cache symbol market_data)
  | .error _ => (dictGet cache symbol, cache)

end MarketDataManager

/-- The recommendation dictionary produced by the external analysis
collaborator; `Option` fields model `dict.get` on possibly missing keys. -/
structure Recommendation where
  timestamp : Option ℕ
  price : Option ℚ
  direction : Option String
  confidence : Option ℚ
  should_trade : Option Bool
  take_profit : Option ℚ
  stop_loss : Option ℚ
  average_confidence : Option ℚ
deriving DecidableEq

/-- One entry of `self.mock_trades[bot_id]`. -/
structure TradeRecord where
  timestamp : Option ℕ
  price : Option ℚ
  direction : Option String
  confidence : Option ℚ
  should_trade : Bool
deriving DecidableEq

/-- The stats dictionary returned by `MockBotManager.get_bot_stats`. -/
structure BotStats where
  profit : String
  total_trades : ℕ
  last_trade : Option TradeRecord
deriving DecidableEq

/-- The mutable state of a `MockBotManager` instance. -/
structure MockBotState where
  next_bot_id : ℕ
  active_bots : List (String × ℕ)
  mock_trades : List (ℕ × List TradeRecord)
deriving DecidableEq

namespace MockBotManager

/-- State of a freshly constructed `MockBotManager` (`next_bot_id = 1000`,
empty registries). -/
def initialState : MockBotState :=
  { next_bot_id := 1000, active_bots := [], mock_trades := [] }

/-- Translates `MockBotManager.create_bot`: allocate the next id, register it
for the pair, return `{'id': bot_id, 'pair': pair}`. -/
def create_bot (s : MockBotState) (pair : String) : (ℕ × String) × MockBotState :=
  let bot_id := s.next_bot_id
  ((bot_id, pair),
   { s with
      next_bot_id := s.next_bot_id + 1
      active_bots := dictSet s.active_bots pair bot_id })

/-- The trade dictionary appended by `MockBotManager.apply_ai_recommendations`. -/
def trade_entry (recommendations : Recommendation) : TradeRecord :=
  { timestamp := recommendations.timestamp
    price := recommendations.price
    direction := recommendations.direction
    confidence := recommendations.confidence
    should_trade := recommendations.should_trade.getD false }

/-- Translates `MockBotManager.apply_ai_recommendations`: ensure a history list
exists for `bot_id`, append the entry, return `True`.  (The `except` branch is
unreachable: no statement of the body can raise.) -/
def apply_ai_recommendations (s : MockBotState) (bot_id : ℕ)
    (recommendations : Recommendation) : Bool × MockBotState :=
  let trades := (dictGet s.mock_trades bot_id).getD []
  (true,
   { s with mock_trades := dictSet s.mock_trades bot_id (trades ++ [trade_entry recommendations]) })

/-- Translates `MockBotManager.get_bot_stats`. -/
def get_bot_stats (s : MockBotState) (bot_id : ℕ) : Option BotStats :=
  let trades := (dictGet s.mock_trades bot_id).getD []
  some { profit := "0.00%", total_trades := trades.length, last_trade := trades.getLast? }

end MockBotManager

/-- Result of one `broadcast` call: which connections got the payload, which
delivery attempts failed, and the connection set after the one-pass pruning. -/
structure BroadcastResult where
  delivered : List ℕ
  disconnected : List ℕ
  remaining : List ℕ
deriving DecidableEq

namespace BinanceWebsocketManager

/-- Python `set` difference `s -= d`, as used to prune failed connections. -/
def pySetDiff (s d : List ℕ) : List ℕ :=
  s.filter (fun c => !(d.contains c))

/-- Python `set.remove`: removes the element, raising `KeyError` (modelled as
`Except.error`) when it is absent.  This is the removal performed in
`BinanceWebsocketManager.connect` when the client's channel ends
(`WebSocketDisconnect`) or errors. -/
def pySetRemove (s : List ℕ) (c : ℕ) : Except Unit (List ℕ) :=
  if s.contains c then .ok (s.erase c) else .error ()

/-- The delivery loop of `BinanceWebsocketManager.broadcast`: try `send_json`
on every connection in order; a failure is recorded in the `disconnected`
accumulator and does not stop the remainder.  Returns
(connections delivered to, failed connections). -/
def sweepDeliver {α : Type} (data : α) (send : ℕ → α → Bool) :
    List ℕ → List ℕ × List ℕ
  | [] => ([], [])
  | c :: rest =>
      let r := sweepDeliver data send rest
      if send c data then (c :: r.1, r.2) else (r.1, c :: r.2)

/-- Translates `BinanceWebsocketManager.broadcast`: one delivery sweep over the
current connection set, then a single set-difference pruning of the failures. -/
def broadcast {α : Type} (conns : List ℕ) (data : α) (send : ℕ → α → Bool) :
    BroadcastResult :=
  let r := sweepDeliver data send conns
  { delivered := r.1, disconnected := r.2, remaining := pySetDiff conns r.2 }

/-- The fields of `BinanceWebsocketManager` state that `start`,
`subscribe_symbols` and `_collect_market_data` touch; `tasks` counts the
entries of `self.tasks`. -/
structure WSState where
  is_running : Bool
  tasks : ℕ
  subscribed_symbols : List String
  market_data : List (String × Option Ticker)
deriving DecidableEq

/-- State of a freshly constructed `BinanceWebsocketManager`. -/
def initialWSState : WSState :=
  { is_running := false, tasks := 0, subscribed_symbols := [], market_data := [] }

/-- Translates `BinanceWebsocketManager.subscribe_symbols`: add each not-yet
subscribed symbol and give it an empty live-state record; an already
subscribed symbol is left untouched.  No task is spawned here. -/
def subscribe_symbols (s : WSState) : List String → WSState
  | [] => s
  | sym :: rest =>
      if s.subscribed_symbols.contains sym then subscribe_symbols s rest
      else
        subscribe_symbols
          { s with
              subscribed_symbols := s.subscribed_symbols ++ [sym]
              market_data := dictSet s.market_data sym none }
          rest

/-- Translates `BinanceWebsocketManager.start`: when not already running, flip
the flag and append a single `_collect_market_data` task — one task in total,
however many symbols are subscribed. -/
def start (s : WSState) : WSState :=
  if s.is_running then s
  else { s with is_running := true, tasks := s.tasks + 1 }

/-- Translates one iteration of the `while` body of
`BinanceWebsocketManager._collect_market_data`: the `for` loop polls the
subscribed symbols in order inside one shared `try`; a fetch failure
(`fetch sym = none`, an exception) jumps to the `except` handler, abandoning
the rest of the sweep and sleeping the shared 5-second backoff.  Returns the
symbols whose state was updated and broadcast, and whether the backoff was
taken. -/
def collect_market_data_sweep : List String → (String → Option Ticker) →
    List String × Bool
  | [], _ => ([], false)
  | sym :: rest, fetch =>
      match fetch sym with
      | some _ =>
          let r := collect_market_data_sweep rest fetch
          (sym :: r.1, r.2)
      | none => ([], true)

end BinanceWebsocketManager

/-- The status record `TradingBot.log_status` emits to the logging sink. -/
structure StatusRecord where
  pair : String
  current_price : ℚ
  price_change_24h : ℚ
  bot_profit : String
  average_confidence : Option ℚ
deriving DecidableEq

/-- The collaborator outcomes one pass of `TradingBot.process_trading_pair`
can observe for a given pair: each awaited call is an `Except Unit` value
(`Except.error` models a raised exception). -/
structure PairEnv where
  market_data : Except Unit (Option MarketSnapshot)
  analysis : Except Unit (Option Recommendation)
  bot_id : Option ℕ
  apply_result : Except Unit Bool
  stats : Except Unit (Option BotStats)

namespace TradingBot

/-- Translates `TradingBot.log_status`: look the bot up again, fetch its stats
and join snapshot + analysis + stats into a status record.  Its own
`try/except` swallows a stats failure (including the attribute error raised by
`stats.get` when stats is `None`), producing no record. -/
def log_status (pair : String) (market_data : MarketSnapshot)
    (analysis : Recommendation) (env : PairEnv) : Option StatusRecord :=
  match env.bot_id with
  | none => none
  | some _ =>
      match env.stats with
      | .error _ => none
      | .ok none => none
      | .ok (some stats) =>
          some
            { pair := pair
              current_price := market_data.current_price
              price_change_24h := market_data.price_change_24h
              bot_profit := stats.profit
              average_confidence := analysis.average_confidence }

/-- The `try` body of `TradingBot.process_trading_pair`: fetch the snapshot,
ask for an analysis, resolve the bot, apply the recommendation, and on a
`True` result emit the status record.  Each `return`-on-missing-data is a
`pure none`; a raised exception anywhere is the `Except.error` outcome. -/
def process_trading_pair_body (pair : String) (env : PairEnv) :
    Except Unit (Option StatusRecord) := do
  let md? ← env.market_data
  match md? with
  | none => pure none
  | some market_data => do
      let analysis? ← env.analysis
      match analysis? with
      | none => pure none
      | some analysis =>
          match env.bot_id with
          | none => pure none
          | some _ => do
              let success ← env.apply_result
              if success then pure (log_status pair market_data analysis env)
              else pure none

/-- Translates `TradingBot.process_trading_pair`: the whole body runs inside
`try/except`, so an exception in any step is caught and logged at this pair's
boundary and the call returns normally (with no status record). -/
def process_trading_pair (pair : String) (env : PairEnv) : Option StatusRecord :=
  match process_trading_pair_body pair env with
  | .ok r => r
  | .error _ => none

/-- Translates one iteration of the `while` loop of `TradingBot.run`:
`process_trading_pair` is awaited for every configured pair in order. -/
def run_cycle (pairs : List String) (envOf : String → PairEnv) :
    List (String × Option StatusRecord) :=
  pairs.map (fun pair => (pair, process_trading_pair pair (envOf pair)))

end TradingBot

/-- Arithmetic mean of a list, as the spec words it ("mean of last 20 closes
(or all available if fewer than 20)"). -/
def listMean (l : List ℚ) : ℚ :=
  l.sum / (l.length : ℚ)

/-- The rsi_14 derivation exactly as the spec words it: "classic Wilder-style
average-gain/average-loss ratio over the last 14 deltas, with avg_loss==0
forced to RSI=100.0 exactly, rounded to 2 decimals".  Stated independently of
the source so the two can be compared. -/
def wilderRSI (closes : List ℚ) : ℚ :=
  let deltas := MarketDataManager.deltasOf closes
  let last14 := takeLast 14 deltas
  let avg_gain := (MarketDataManager.gainsOf last14).sum / (14 : ℚ)
  let avg_loss := (MarketDataManager.lossesOf last14).sum / (14 : ℚ)
  if avg_loss = 0 then 100
  else round2 (100 - 100 / (1 + avg_gain / avg_loss))

/-! Concrete values used to instantiate the theorems below. -/

/-- A sample set of indicator values. -/
def sampleIndicators : Indicators :=
  { sma_20 := 100, rsi_14 := 50, price_vs_sma := 0 }

/-- A sample cached snapshot. -/
def sampleSnapshot : MarketSnapshot :=
  { symbol := "BTCUSDT", current_price := 100, price_change_24h := 1,
    volume_24h := 5, timestamp := 42, trend := "neutral", volatility := 0,
    indicators := sampleIndicators, high_24h := 120, low_24h := 90 }

/-- A sample ticker. -/
def sampleTicker : Ticker :=
  { lastPrice := 100, priceChangePercent := 1, volume := 5,
    highPrice := 120, lowPrice := 90 }

/-- A recommendation whose `should_trade` field is explicitly `False`. -/
def recNoTrade : Recommendation :=
  { timestamp := some 1, price := some 100, direction := some "buy",
    confidence := some 50, should_trade := some false, take_profit := none,
    stop_loss := none, average_confidence := some 50 }

/-- A recommendation that asks to trade, with all required fields. -/
def recGood : Recommendation :=
  { timestamp := some 2, price := some 100, direction := some "buy",
    confidence := some 90, should_trade := some true, take_profit := some 2,
    stop_loss := some 1, average_confidence := some 90 }

/-- Mock-registry state after one `create_bot("BTCUSDT")` call (bot id 1000,
no trades yet). -/
def mockAfterCreate : MockBotState :=
  (MockBotManager.create_bot MockBotManager.initialState "BTCUSDT").2

/-- Sample bot stats. -/
def stats0 : BotStats :=
  { profit := "0.00%", total_trades := 1,
    last_trade := some (MockBotManager.trade_entry recGood) }

/-- A pair environment whose snapshot fetch raises. -/
def failEnv : PairEnv :=
  { market_data := .error (), analysis := .ok none, bot_id := none,
    apply_result := .ok false, stats := .ok none }

/-- A pair environment in which every step succeeds. -/
def goodEnv : PairEnv :=
  { market_data := .ok (some sampleSnapshot), analysis := .ok (some recGood),
    bot_id := some 1000, apply_result := .ok true, stats := .ok (some stats0) }

/-- Environment assignment: pair P1 fails at the snapshot fetch, every other
pair succeeds end to end. -/
def envOfSample (pair : String) : PairEnv :=
  if pair = "P1" then failEnv else goodEnv

/-- The status record the successful pair P2 produces under `envOfSample`. -/
def status0 : StatusRecord :=
  { pair := "P2", current_price := sampleSnapshot.current_price,
    price_change_24h := sampleSnapshot.price_change_24h,
    bot_profit := stats0.profit, average_confidence := recGood.average_confidence }

/-- Fourteen candles: thirteen closes of 1 and one close of 15. -/
def klines14 : List Kline :=
  List.replicate 13 ⟨1⟩ ++ [⟨15⟩]

/-- Fourteen strictly increasing closes 1..14. -/
def klines14incr : List Kline :=
  (List.range 14).map (fun i => ⟨(i : ℚ) + 1⟩)

/-- Sixteen strictly increasing closes 0..15. -/
def klines16 : List Kline :=
  (List.range 16).map (fun i => ⟨(i : ℚ)⟩)

/-- Sixteen strictly increasing prices 0..15. -/
def prices16 : List ℚ :=
  (List.range 16).map (fun i => (i : ℚ))

/-- A fetch oracle that raises for BTCUSDT and succeeds for every other
symbol. -/
def failingFetch (sym : String) : Option Ticker :=
  if sym = "BTCUSDT" then none else some sampleTicker

/-! ## Helper lemmas -/

/-- Looking up a key just written returns the written value. -/
theorem dictGet_dictSet_self {κ α : Type} [DecidableEq κ]
    (m : List (κ × α)) (k : κ) (v : α) : dictGet (dictSet m k v) k = some v := by
  induction m with
  | nil => simp [dictGet, dictSet]
  | cons p rest ih =>
      by_cases h : p.1 = k
      · simp [dictGet, dictSet, h]
      · simp [dictGet, dictSet, h, ih]

/-- Length of a right slice that fits. -/
theorem takeLast_length_of_le {α : Type} (n : ℕ) (l : List α) (h : n ≤ l.length) :
    (takeLast n l).length = n := by
  simp [takeLast]
  omega

/-- Right slices commute with `map`. -/
theorem takeLast_map {α β : Type} (f : α → β) (n : ℕ) (l : List α) :
    takeLast n (l.map f) = (takeLast n l).map f := by
  simp [takeLast]

/-- Members of a right slice are members of the list. -/
theorem mem_of_mem_takeLast {α : Type} {x : α} {n : ℕ} {l : List α}
    (h : x ∈ takeLast n l) : x ∈ l :=
  (List.drop_sublist _ _).subset h

/-- `roundHalfEven` lands on the floor or the floor plus one. -/
theorem roundHalfEven_bounds (x : ℚ) :
    ⌊x⌋ ≤ roundHalfEven x ∧ roundHalfEven x ≤ ⌊x⌋ + 1 := by
  unfold roundHalfEven
  split
  · exact ⟨le_refl _, by omega⟩
  · split
    · exact ⟨by omega, le_refl _⟩
    · split
      · exact ⟨le_refl _, by omega⟩
      · exact ⟨by omega, le_refl _⟩

/-- Rounding a value of `[0, 100)` to two decimals stays within `[0, 100]`. -/
theorem round2_bounds (x : ℚ) (h0 : 0 ≤ x) (h1 : x < 100) :
    0 ≤ round2 x ∧ round2 x ≤ 100 := by
  obtain ⟨hl, hu⟩ := roundHalfEven_bounds (x * 100)
  have hf0 : (0 : ℤ) ≤ ⌊x * 100⌋ := Int.floor_nonneg.2 (by positivity)
  have hfu : ⌊x * 100⌋ < 10000 := Int.floor_lt.2 (by push_cast; linarith)
  constructor
  · unfold round2
    apply div_nonneg _ (by norm_num)
    exact_mod_cast le_trans hf0 hl
  · unfold round2
    rw [div_le_iff₀ (by norm_num : (0 : ℚ) < 100)]
    have hle : roundHalfEven (x * 100) ≤ 10000 := by omega
    calc (roundHalfEven (x * 100) : ℚ) ≤ (10000 : ℚ) := by exact_mod_cast hle
      _ = 100 * 100 := by norm_num

/-- Every entry of the gains list is nonnegative. -/
theorem gainsOf_nonneg {x : ℚ} {deltas : List ℚ}
    (h : x ∈ MarketDataManager.gainsOf deltas) : 0 ≤ x := by
  obtain ⟨d, _, rfl⟩ := List.mem_map.1 h
  split
  · linarith
  · exact le_refl 0

/-- Every entry of the losses list is nonnegative. -/
theorem lossesOf_nonneg {x : ℚ} {deltas : List ℚ}
    (h : x ∈ MarketDataManager.lossesOf deltas) : 0 ≤ x := by
  obtain ⟨d, _, rfl⟩ := List.mem_map.1 h
  split
  · linarith
  · exact le_refl 0

/-- The average gain is nonnegative. -/
theorem avg_gain_nonneg (prices : List ℚ) (period : ℕ) :
    0 ≤ MarketDataManager.avg_gain prices period :=
  div_nonneg
    (List.sum_nonneg fun _ hx => gainsOf_nonneg (mem_of_mem_takeLast hx))
    (Nat.cast_nonneg period)

/-- The average loss is nonnegative. -/
theorem avg_loss_nonneg (prices : List ℚ) (period : ℕ) :
    0 ≤ MarketDataManager.avg_loss prices period :=
  div_nonneg
    (List.sum_nonneg fun _ hx => lossesOf_nonneg (mem_of_mem_takeLast hx))
    (Nat.cast_nonneg period)

/-! ## Claims -/

/-- C1: when the market-data fetch raises and a cached snapshot exists for the
symbol, `get_market_data` returns exactly that cached snapshot and leaves the
cache untouched; when the fetch raises and no cache entry exists, it returns
`None` (the DataUnavailable outcome surfaced as "no data").  The function is
total: the `except` branch never re-raises. -/
theorem get_market_data_fetch_failure (cache : MarketDataManager.Cache)
    (symbol : String) (now : ℕ) :
    (∀ snap, dictGet cache symbol = some snap →
      MarketDataManager.get_market_data cache symbol (Except.error ()) now
        = (some snap, cache)) ∧
    (dictGet cache symbol = none →
      MarketDataManager.get_market_data cache symbol (Except.error ()) now
        = (none, cache)) := by
  refine ⟨fun snap h => ?_, fun h => ?_⟩ <;>
    simp [MarketDataManager.get_market_data, h]

/-- Witness for C1: a one-entry cache returns its snapshot on fetch failure;
an empty cache yields the no-data result. -/
theorem get_market_data_fetch_failure_witness :
    MarketDataManager.get_market_data [("BTCUSDT", sampleSnapshot)] "BTCUSDT"
        (Except.error ()) 7 = (some sampleSnapshot, [("BTCUSDT", sampleSnapshot)]) ∧
    MarketDataManager.get_market_data [] "BTCUSDT" (Except.error ()) 7 = (none, []) :=
  ⟨(get_market_data_fetch_failure [("BTCUSDT", sampleSnapshot)] "BTCUSDT" 7).1
      sampleSnapshot rfl,
   (get_market_data_fetch_failure [] "BTCUSDT" 7).2 rfl⟩

/-- C10: `get_bot_stats` never returns `None`: for every state and every bot
id — including ids never created — it returns the placeholder profit string,
the length of that bot's trade history, and the most recent record (or none). -/
theorem get_bot_stats_total (s : MockBotState) (bot_id : ℕ) :
    MockBotManager.get_bot_stats s bot_id =
      some { profit := "0.00%",
             total_trades := ((dictGet s.mock_trades bot_id).getD []).length,
             last_trade := ((dictGet s.mock_trades bot_id).getD []).getLast? } ∧
    (dictGet s.mock_trades bot_id = none →
      MockBotManager.get_bot_stats s bot_id =
        some { profit := "0.00%", total_trades := 0, last_trade := none }) := by
  constructor
  · rfl
  · intro h
    simp [MockBotManager.get_bot_stats, h]

/-- Witness for C10: stats for an id with no create_bot call. -/
theorem get_bot_stats_total_witness :
    MockBotManager.get_bot_stats MockBotManager.initialState 999 =
      some { profit := "0.00%", total_trades := 0, last_trade := none } :=
  (get_bot_stats_total MockBotManager.initialState 999).2 rfl

/-- C2 (amended): the mock `apply_ai_recommendations` never consults
`should_trade`: for every state, bot id and recommendation — including
`should_trade = False` — it returns `True` and appends exactly one trade
record to that bot's history. -/
theorem mock_apply_always_records (s : MockBotState) (bot_id : ℕ)
    (r : Recommendation) :
    (MockBotManager.apply_ai_recommendations s bot_id r).1 = true ∧
    dictGet (MockBotManager.apply_ai_recommendations s bot_id r).2.mock_trades bot_id =
      some ((dictGet s.mock_trades bot_id).getD [] ++ [MockBotManager.trade_entry r]) :=
  ⟨rfl, dictGet_dictSet_self _ _ _⟩

/-- Counterexample to C2 as stated: for bot 1000 (just created, no history)
and a recommendation with `should_trade = False`, the mock apply returns
`True` — not `False` — and appends a trade record. -/
theorem mock_apply_should_trade_false_counterexample :
    recNoTrade.should_trade = some false ∧
    (MockBotManager.apply_ai_recommendations mockAfterCreate 1000 recNoTrade).1 ≠ false ∧
    dictGet mockAfterCreate.mock_trades 1000 = none ∧
    dictGet (MockBotManager.apply_ai_recommendations mockAfterCreate 1000
        recNoTrade).2.mock_trades 1000
      = some [MockBotManager.trade_entry recNoTrade] := by
  refine ⟨rfl, by decide, rfl, rfl⟩

/-- C3: broadcasting to live connections [a, b, c] where only delivery to b
fails delivers the payload to a and to c, records exactly b as failed, and
prunes exactly b from the live set — after the whole sweep, in one pass (c is
still delivered although b failed before it). -/
theorem broadcast_partial_failure {α : Type} (a b c : ℕ) (data : α)
    (send : ℕ → α → Bool) (hab : a ≠ b) (hcb : c ≠ b)
    (ha : send a data = true) (hb : send b data = false) (hc : send c data = true) :
    (BinanceWebsocketManager.broadcast [a, b, c] data send).delivered = [a, c] ∧
    (BinanceWebsocketManager.broadcast [a, b, c] data send).disconnected = [b] ∧
    (BinanceWebsocketManager.broadcast [a, b, c] data send).remaining = [a, c] := by
  refine ⟨?_, ?_, ?_⟩ <;>
    simp [BinanceWebsocketManager.broadcast, BinanceWebsocketManager.sweepDeliver,
      BinanceWebsocketManager.pySetDiff, ha, hb, hc, hab, hcb]

/-- Witness for C3: connections 0, 1, 2 where delivery to 1 fails. -/
theorem broadcast_partial_failure_witness :
    (BinanceWebsocketManager.broadcast [0, 1, 2] "tick" (fun c _ => c != 1)).delivered
      = [0, 2] ∧
    (BinanceWebsocketManager.broadcast [0, 1, 2] "tick" (fun c _ => c != 1)).disconnected
      = [1] ∧
    (BinanceWebsocketManager.broadcast [0, 1, 2] "tick" (fun c _ => c != 1)).remaining
      = [0, 2] :=
  broadcast_partial_failure 0 1 2 "tick" (fun c _ => c != 1)
    (by decide) (by decide) rfl rfl rfl

/-- C4: an exception in one pair's processing is caught at that pair's
boundary: with pair p1 whose snapshot fetch raises and pair p2 whose steps all
succeed with status s, the cycle still produces p2's status record — and every
configured pair is attempted exactly once per iteration, whatever the
environments do. -/
theorem run_cycle_failure_isolation (p1 p2 : String) (envOf : String → PairEnv)
    (s : StatusRecord)
    (h1 : (envOf p1).market_data = Except.error ())
    (h2 : TradingBot.process_trading_pair p2 (envOf p2) = some s) :
    TradingBot.run_cycle [p1, p2] envOf = [(p1, none), (p2, some s)] ∧
    ∀ pairs : List String, (TradingBot.run_cycle pairs envOf).map Prod.fst = pairs := by
  constructor
  · have hp1 : TradingBot.process_trading_pair p1 (envOf p1) = none := by
      unfold TradingBot.process_trading_pair TradingBot.process_trading_pair_body
      rw [h1]
      rfl
    simp [TradingBot.run_cycle, hp1, h2]
  · intro pairs
    simp [TradingBot.run_cycle, List.map_map, Function.comp_def]

/-- Witness for C4: pair P1 fails its fetch, pair P2 succeeds end to end and
still produces its status record. -/
theorem run_cycle_failure_isolation_witness :
    TradingBot.run_cycle ["P1", "P2"] envOfSample = [("P1", none), ("P2", some status0)] :=
  (run_cycle_failure_isolation "P1" "P2" envOfSample status0 rfl rfl).1

/-- C9 (amended): the two removal paths differ.  The explicit removal done in
the `connect` handler when a client's channel ends or errors (`set.remove`)
removes a present connection but raises `KeyError` when the connection is
already absent — it is not an idempotent no-op; only the broadcast sweep's
set-difference pruning leaves the live set unchanged for an absent
connection. -/
theorem removal_semantics (conns : List ℕ) (c : ℕ) :
    (c ∈ conns → BinanceWebsocketManager.pySetRemove conns c
      = Except.ok (conns.erase c)) ∧
    (c ∉ conns → BinanceWebsocketManager.pySetRemove conns c = Except.error ()) ∧
    (c ∉ conns → BinanceWebsocketManager.pySetDiff conns [c] = conns) := by
  refine ⟨fun h => ?_, fun h => ?_, fun h => ?_⟩
  · simp [BinanceWebsocketManager.pySetRemove, h]
  · simp [BinanceWebsocketManager.pySetRemove, h]
  · rw [BinanceWebsocketManager.pySetDiff, List.filter_eq_self]
    intro x hx
    have hxc : x ≠ c := fun he => h (he ▸ hx)
    simp [hxc]

/-- Witness for C9: removing 5 from {5} succeeds; removing 7 from {5} raises;
diff-pruning 7 out of {5} is a no-op. -/
theorem removal_semantics_witness :
    BinanceWebsocketManager.pySetRemove [5] 5 = Except.ok ([5].erase 5) ∧
    BinanceWebsocketManager.pySetRemove [5] 7 = Except.error () ∧
    BinanceWebsocketManager.pySetDiff [5] [7] = [5] :=
  ⟨(removal_semantics [5] 5).1 (by decide),
   (removal_semantics [5] 7).2.1 (by decide),
   (removal_semantics [5] 7).2.2 (by decide)⟩

/-- Counterexample to C9 as stated: after a broadcast sweep over {0, 1} in
which delivery to 1 failed, 1 has been pruned; the removal the `connect`
handler then performs for 1 raises `KeyError` instead of being a no-op. -/
theorem remove_after_prune_counterexample :
    (BinanceWebsocketManager.broadcast [0, 1] "tick" (fun c _ => c != 1)).remaining = [0] ∧
    BinanceWebsocketManager.pySetRemove
      (BinanceWebsocketManager.broadcast [0, 1] "tick" (fun c _ => c != 1)).remaining 1
      = Except.error () := by
  exact ⟨rfl, rfl⟩


/-- C5 (amended): the sma_20 field of the indicators derivation is the 0.0
default below 14 closes, the LAST close (not the mean) when there are 14 to 19
closes, and the mean of the last 20 closes when there are 20 or more. -/
theorem sma_characterization (klines : List Kline) :
    (MarketDataManager.calculate_indicators klines).sma_20 =
      if klines.length < 14 then 0
      else if klines.length < 20 then (closesOf klines).getLastD 0
      else listMean (takeLast 20 (closesOf klines)) := by
  have hlen : (closesOf klines).length = klines.length := by simp [closesOf]
  by_cases h14 : klines.length < 14
  · simp [MarketDataManager.calculate_indicators, h14]
  · by_cases h20 : klines.length < 20
    · simp [MarketDataManager.calculate_indicators, MarketDataManager.calculate_sma,
        h14, h20, hlen]
    · have hlen20 : (takeLast 20 (closesOf klines)).length = 20 :=
        takeLast_length_of_le 20 _ (by omega)
      simp [MarketDataManager.calculate_indicators, MarketDataManager.calculate_sma,
        h14, h20, hlen, listMean, hlen20]

/-- Counterexample to C5 as stated: for 14 closes (13 ones and one 15) — a
non-empty series shorter than 20 — the derived sma_20 is the last close 15,
not the arithmetic mean 2 of the available closes. -/
theorem sma_short_mean_counterexample :
    klines14.length = 14 ∧
    (MarketDataManager.calculate_indicators klines14).sma_20 = 15 ∧
    listMean (closesOf klines14) = 2 ∧ (15 : ℚ) ≠ 2 := by
  with_unfolding_all decide

/-- C6 (amended): below 14 closes the indicators are exactly the defaults
{sma_20: 0.0, rsi_14: 50.0, price_vs_sma: 0.0}; at exactly 14 closes the
rsi_14 field is still the 50.0 default (there are only 13 deltas); from 15
closes on it is the spec's Wilder average-gain/average-loss RSI over the last
14 deltas. -/
theorem rsi_characterization (klines : List Kline) :
    (klines.length < 14 →
      MarketDataManager.calculate_indicators klines
        = { sma_20 := 0, rsi_14 := 50, price_vs_sma := 0 }) ∧
    (klines.length = 14 → (MarketDataManager.calculate_indicators klines).rsi_14 = 50) ∧
    (15 ≤ klines.length →
      (MarketDataManager.calculate_indicators klines).rsi_14
        = wilderRSI (closesOf klines)) := by
  have hlen : (closesOf klines).length = klines.length := by simp [closesOf]
  refine ⟨fun h => by simp [MarketDataManager.calculate_indicators, h], fun h => ?_,
    fun h => ?_⟩
  · have h14 : ¬ klines.length < 14 := by omega
    simp [MarketDataManager.calculate_indicators, h14,
      MarketDataManager.calculate_rsi, hlen, h]
  · have h14 : ¬ klines.length < 14 := by omega
    have h15 : ¬ (closesOf klines).length < 14 + 1 := by omega
    simp only [MarketDataManager.calculate_indicators, if_neg h14]
    show MarketDataManager.calculate_rsi (closesOf klines) 14
      = wilderRSI (closesOf klines)
    unfold MarketDataManager.calculate_rsi wilderRSI
    rw [if_neg h15]
    simp [MarketDataManager.avg_gain, MarketDataManager.avg_loss,
      MarketDataManager.gainsOf, MarketDataManager.lossesOf, takeLast_map]

/-- Witness for C6: a 1-close series gives the default triple; 14 increasing
closes give the 50.0 default; 16 closes give the Wilder value. -/
theorem rsi_characterization_witness :
    MarketDataManager.calculate_indicators [⟨1⟩]
      = { sma_20 := 0, rsi_14 := 50, price_vs_sma := 0 } ∧
    (MarketDataManager.calculate_indicators klines14incr).rsi_14 = 50 ∧
    (MarketDataManager.calculate_indicators klines16).rsi_14
      = wilderRSI (closesOf klines16) :=
  ⟨(rsi_characterization [⟨1⟩]).1 (by decide),
   (rsi_characterization klines14incr).2.1 (by decide),
   (rsi_characterization klines16).2.2 (by decide)⟩

/-- Counterexample to C6 as stated: for exactly 14 strictly increasing closes
the code returns the 50.0 default while the Wilder computation over those
deltas (all gains, zero losses) is exactly 100.0. -/
theorem rsi_fourteen_counterexample :
    klines14incr.length = 14 ∧
    (MarketDataManager.calculate_indicators klines14incr).rsi_14 = 50 ∧
    wilderRSI (closesOf klines14incr) = 100 ∧ (50 : ℚ) ≠ 100 := by
  with_unfolding_all decide

/-- C7: for every price list with a nonempty delta sequence the RSI lies in
[0, 100]; and whenever the average loss over the last 14 deltas exists (at
least 14 deltas) and is zero, the returned value is exactly 100.0. -/
theorem rsi_bounds (prices : List ℚ) (h : 2 ≤ prices.length) :
    (0 ≤ MarketDataManager.calculate_rsi prices 14 ∧
      MarketDataManager.calculate_rsi prices 14 ≤ 100) ∧
    (15 ≤ prices.length → MarketDataManager.avg_loss prices 14 = 0 →
      MarketDataManager.calculate_rsi prices 14 = 100) := by
  constructor
  · by_cases hlen : prices.length < 14 + 1
    · unfold MarketDataManager.calculate_rsi
      rw [if_pos hlen]
      norm_num
    · unfold MarketDataManager.calculate_rsi
      rw [if_neg hlen]
      by_cases hal : MarketDataManager.avg_loss prices 14 = 0
      · rw [if_pos hal]
        norm_num
      · rw [if_neg hal]
        have hg := avg_gain_nonneg prices 14
        have hl0 := avg_loss_nonneg prices 14
        have hrs : 0 ≤ MarketDataManager.avg_gain prices 14
            / MarketDataManager.avg_loss prices 14 := div_nonneg hg hl0
        have hfrac1 : 100 / (1 + MarketDataManager.avg_gain prices 14
            / MarketDataManager.avg_loss prices 14) ≤ 100 :=
          div_le_self (by norm_num) (by linarith)
        have hfrac0 : 0 < 100 / (1 + MarketDataManager.avg_gain prices 14
            / MarketDataManager.avg_loss prices 14) :=
          div_pos (by norm_num) (by linarith)
        exact round2_bounds _ (by linarith) (by linarith)
  · intro h15 hal
    unfold MarketDataManager.calculate_rsi
    rw [if_neg (by omega), if_pos hal]

/-- Witness for C7: sixteen strictly increasing prices have at least 14
deltas, zero average loss, and RSI exactly 100 — inside [0, 100]. -/
theorem rsi_bounds_witness :
    (0 ≤ MarketDataManager.calculate_rsi prices16 14 ∧
      MarketDataManager.calculate_rsi prices16 14 ≤ 100) ∧
    MarketDataManager.calculate_rsi prices16 14 = 100 :=
  ⟨(rsi_bounds prices16 (by decide)).1,
   (rsi_bounds prices16 (by decide)).2 (by decide) (by with_unfolding_all decide)⟩

/-- Subscribing symbols touches neither the running flag nor the task list. -/
theorem subscribe_preserves (symbols : List String)
    (s : BinanceWebsocketManager.WSState) :
    (BinanceWebsocketManager.subscribe_symbols s symbols).is_running = s.is_running ∧
    (BinanceWebsocketManager.subscribe_symbols s symbols).tasks = s.tasks := by
  induction symbols generalizing s with
  | nil => exact ⟨rfl, rfl⟩
  | cons sym rest ih =>
      unfold BinanceWebsocketManager.subscribe_symbols
      by_cases hc : s.subscribed_symbols.contains sym = true
      · rw [if_pos hc]
        exact ih s
      · rw [if_neg hc]
        exact ih _

/-- A fetch failure for one symbol abandons the rest of that sweep: only the
symbols polled before the failing one are updated, and the shared backoff is
taken. -/
theorem sweep_abort (pre post : List String) (sym : String)
    (fetch : String → Option Ticker)
    (hpre : ∀ x ∈ pre, (fetch x).isSome) (hsym : fetch sym = none) :
    BinanceWebsocketManager.collect_market_data_sweep (pre ++ sym :: post) fetch
      = (pre, true) := by
  revert hpre
  induction pre with
  | nil =>
      intro _
      simp [BinanceWebsocketManager.collect_market_data_sweep, hsym]
  | cons x xs ih =>
      intro hpre
      obtain ⟨t, ht⟩ := Option.isSome_iff_exists.1 (hpre x (List.mem_cons_self x xs))
      have ih2 := ih (fun y hy => hpre y (List.mem_cons_of_mem x hy))
      simp [BinanceWebsocketManager.collect_market_data_sweep, ht, ih2]

/-- C8 (amended): `start` spawns a single shared collection task — one task in
total, however many symbols are subscribed, and re-subscription spawns none —
and within that task's sweep the symbols are polled sequentially, so one
symbol's fetch failure abandons every later symbol's update for that sweep and
imposes the shared 5-second backoff on all of them. -/
theorem collect_shared_task (s0 : BinanceWebsocketManager.WSState)
    (symbols pre post : List String)
    (sym : String) (fetch : String → Option Ticker)
    (hrun : s0.is_running = false)
    (hpre : ∀ x ∈ pre, (fetch x).isSome)
    (hsym : fetch sym = none) :
    (BinanceWebsocketManager.start
        (BinanceWebsocketManager.subscribe_symbols s0 symbols)).tasks
      = s0.tasks + 1 ∧
    BinanceWebsocketManager.collect_market_data_sweep (pre ++ sym :: post) fetch
      = (pre, true) := by
  constructor
  · obtain ⟨hr, ht⟩ := subscribe_preserves symbols s0
    simp [BinanceWebsocketManager.start, hr, hrun, ht]
  · exact sweep_abort pre post sym fetch hpre hsym

/-- Witness for C8: two subscribed symbols, one task; ETHUSDT polled first is
updated, then BTCUSDT's failure aborts the sweep with the backoff taken. -/
theorem collect_shared_task_witness :
    (BinanceWebsocketManager.start
        (BinanceWebsocketManager.subscribe_symbols BinanceWebsocketManager.initialWSState
          ["BTCUSDT", "ETHUSDT"])).tasks = 1 ∧
    BinanceWebsocketManager.collect_market_data_sweep ["ETHUSDT", "BTCUSDT"] failingFetch
      = (["ETHUSDT"], true) :=
  collect_shared_task BinanceWebsocketManager.initialWSState ["BTCUSDT", "ETHUSDT"]
    ["ETHUSDT"] [] "BTCUSDT" failingFetch rfl (by decide) rfl

/-- Counterexample to C8 as stated: with two subscribed symbols there is one
collection task, not one per symbol; and in a sweep where BTCUSDT's fetch
fails first, ETHUSDT — whose own fetch succeeds — is skipped and delayed by
the shared backoff. -/
theorem per_symbol_task_counterexample :
    (BinanceWebsocketManager.subscribe_symbols BinanceWebsocketManager.initialWSState
        ["BTCUSDT", "ETHUSDT"]).subscribed_symbols.length = 2 ∧
    (BinanceWebsocketManager.start
        (BinanceWebsocketManager.subscribe_symbols BinanceWebsocketManager.initialWSState
          ["BTCUSDT", "ETHUSDT"])).tasks = 1 ∧
    (1 : ℕ) ≠ 2 ∧
    failingFetch "ETHUSDT" = some sampleTicker ∧
    BinanceWebsocketManager.collect_market_data_sweep ["BTCUSDT", "ETHUSDT"] failingFetch
      = ([], true) := by
  refine ⟨rfl, rfl, by decide, rfl, rfl⟩

end Crypto
